import Mathlib

/-!
Shallow embedding of the identity/token subsystem of the `vansh` backend:
`src/api/services/userService.js`, `src/api/utils/email/emailService.js`,
and the Mongoose models `User.js`, `Token.js`, `Otp.js`.

The three MongoDB collections are modelled as lists of records kept in
insertion order (Mongo's natural order for these collections); `findOne`
with a filter is `List.find?`, `findOne(..).sort({createdAt:-1})` picks the
record with maximal `createdAt` (earliest-inserted wins ties, matching a
stable descending sort), `deleteMany` is `List.filter`, `findByIdAndUpdate`
is `List.map` guarded on the id.  Timestamps are naturals (milliseconds);
`moment().add(n, 'minutes')` is `now + n * 60000`, etc.  `bcrypt` hashing
and `jwt.sign` are modelled by concrete injective encodings, which captures
the properties the service relies on (compare succeeds exactly on the
original password; signing is deterministic in payload).  The
`Math.random()` draw in `generateOTP` is modelled by a natural parameter
`r`, `r % 900000` standing for `Math.floor(Math.random() * 900000)`.
The nodemailer transporter is modelled by a boolean `sendFails` oracle;
a failed send throws after the OTP was already saved, exactly as in
`sendVerificationOTP`.
-/

namespace Vansh

/-- A stored user document (model `User.js`, full schema from the model file
with `name`/`username`/`mobileNumber`/verification flags).  `password`
holds the bcrypt hash (the pre-save hook hashes before persisting). -/
structure UserRec where
  uid : Nat
  email : String
  name : Option String
  username : Option String
  mobileNumber : Option String
  password : String
  isEmailVerified : Bool
  isMobileVerified : Bool
  createdAt : Nat
deriving Repr, DecidableEq

/-- A stored refresh-token document (model `Token.js`). -/
structure TokenRec where
  tid : Nat
  token : String
  user : Nat
  ttype : String
  expires : Nat
  blacklisted : Bool
deriving Repr, DecidableEq

/-- A stored OTP document (model `Otp.js`); `createdAt` from
`timestamps: true`. -/
structure OtpRec where
  oid : Nat
  email : String
  otp : String
  purpose : String
  expires : Nat
  isUsed : Bool
  createdAt : Nat
deriving Repr, DecidableEq

/-- The database state: the three collections, plus a fresh-id counter for
newly created documents. -/
structure DB where
  users : List UserRec
  tokens : List TokenRec
  otps : List OtpRec
  nextId : Nat
deriving Repr, DecidableEq

/-- Environment configuration consumed by the token code:
`NODE_ENV === 'development'`, `JWT_ACCESS_EXPIRATION_MINUTES`,
`JWT_REFRESH_EXPIRATION_DAYS`. -/
structure Config where
  devMode : Bool := false
  accessMins : Option Nat := none
  refreshDays : Option Nat := none
deriving Repr, DecidableEq

/-- Service-call outcome, mirroring the JS result objects:
`{success:true, data, message?}` or `{success:false, error, statusCode,
message?}`. -/
inductive SvcRes (α : Type) where
  | ok (data : α) (message : Option String)
  | fail (error : String) (statusCode : Nat) (message : Option String)
deriving Repr, DecidableEq

/-- Model of `bcrypt.hash`: an injective tagging; the salt is immaterial
to the service's control flow. -/
def bcryptHash (p : String) : String := "bc$" ++ p

/-- Model of `bcrypt.compare(candidate, storedHash)` (`User.comparePassword`). -/
def bcryptCompare (candidate storedHash : String) : Bool :=
  bcryptHash candidate == storedHash

/-- Model of `jwt.sign({id, email, exp}, JWT_SECRET)` for access tokens:
a deterministic injective payload encoding. -/
def signAccess (uid : Nat) (email : String) (expUnix : Nat) : String :=
  "acc." ++ toString uid ++ "." ++ email ++ "." ++ toString expUnix

/-- Model of `jwt.sign({id, exp}, JWT_REFRESH_SECRET)` for refresh tokens. -/
def signRefresh (uid : Nat) (expUnix : Nat) : String :=
  "ref." ++ toString uid ++ "." ++ toString expUnix

/-- The public projection of a user document returned by the service
(id, email, name, username, mobileNumber, verification flags, createdAt). -/
structure PublicUser where
  uid : Nat
  email : String
  name : Option String
  username : Option String
  mobileNumber : Option String
  isEmailVerified : Bool
  isMobileVerified : Bool
  createdAt : Nat
deriving Repr, DecidableEq

def toPublic (u : UserRec) : PublicUser :=
  { uid := u.uid, email := u.email, name := u.name, username := u.username,
    mobileNumber := u.mobileNumber, isEmailVerified := u.isEmailVerified,
    isMobileVerified := u.isMobileVerified, createdAt := u.createdAt }

/-- The access/refresh pair returned by `generateAuthTokens`. -/
structure TokenPair where
  accessToken : String
  accessExpires : Nat
  refreshToken : String
  refreshExpires : Nat
deriving Repr, DecidableEq

/-! ## EmailService (`src/api/utils/email/emailService.js`) -/

/-- Embedding of `generateOTP`: `Math.floor(100000 + Math.random() * 900000).toString()`.
The random draw `Math.floor(Math.random() * 900000)` is the parameter
`r % 900000`. -/
def generateOTP (r : Nat) : String := toString (100000 + r % 900000)

/-- Embedding of `saveOTP`: delete any existing OTPs for this email and purpose, then
insert a new document expiring in 10 minutes (`isUsed` defaults to
`false`). Returns the saved document and the new state. -/
def saveOTP (email otpCode purpose : String) (now : Nat) (db : DB) :
    OtpRec × DB :=
  let remaining := db.otps.filter fun x => !(x.email == email && x.purpose == purpose)
  let o : OtpRec :=
    { oid := db.nextId, email := email, otp := otpCode, purpose := purpose,
      expires := now + 10 * 60000, isUsed := false, createdAt := now }
  (o, { db with otps := remaining ++ [o], nextId := db.nextId + 1 })

/-- Pick the match with maximal `createdAt` (first-inserted wins ties):
the effect of `.sort({ createdAt: -1 })` followed by taking the head. -/
def pickLatest : List OtpRec → Option OtpRec
  | [] => none
  | x :: xs =>
    match pickLatest xs with
    | none => some x
    | some b => if x.createdAt < b.createdAt then some b else some x

/-- The filter of `OTP.findOne({email, purpose, isUsed:false,
expires:{$gt:now}})`. -/
def otpActive (email purpose : String) (now : Nat) (x : OtpRec) : Bool :=
  x.email == email && x.purpose == purpose && !x.isUsed && decide (now < x.expires)

/-- The unused, unexpired OTPs for `(email, purpose)` at time `now`. -/
def activeOtps (email purpose : String) (now : Nat) (db : DB) : List OtpRec :=
  db.otps.filter (otpActive email purpose now)

/-- Embedding of `OTP.findOne({email, purpose, isUsed:false, expires:{$gt:now}})
.sort({createdAt:-1})`. -/
def findLatestOtp (email purpose : String) (now : Nat) (db : DB) : Option OtpRec :=
  pickLatest (activeOtps email purpose now db)

/-- Embedding of `otp.isUsed = true; await otp.save()`: persist the used flag on the
document with the given id. -/
def markOtpUsed (oid : Nat) (db : DB) : DB :=
  { db with otps := db.otps.map fun x =>
      if x.oid == oid then { x with isUsed := true } else x }

/-- Embedding of `verifyOTP`: find the latest unused unexpired OTP for (email, purpose);
fail on absence or exact-string mismatch; otherwise mark it used. -/
def verifyOTP (email otpCode purpose : String) (now : Nat) (db : DB) :
    Bool × DB :=
  match findLatestOtp email purpose now db with
  | none => (false, db)
  | some o =>
    if o.otp ≠ otpCode then (false, db)
    else (true, markOtpUsed o.oid db)

/-- The error message carried by a failed transporter send (modelled; the
JS surfaces `error.message` of whatever nodemailer threw). -/
def sendFailureMsg : String := "email send failed"

/-- Embedding of `sendVerificationOTP`: generate a code, save it (this commits even if
the subsequent send fails), then hand off to the transporter; a send
failure is rethrown.  `r` is the randomness, `sendFails` the transporter
oracle. -/
def sendVerificationOTP (email : String) (r : Nat) (sendFails : Bool)
    (now : Nat) (db : DB) : DB × Except String Unit :=
  let otpCode := generateOTP r
  let db1 := (saveOTP email otpCode "verification" now db).2
  if sendFails then (db1, .error sendFailureMsg) else (db1, .ok ())

/-! ## UserService (`src/api/services/userService.js`) -/

/-- Signup input for `createUser`. -/
structure SignupData where
  email : String
  password : String
  name : Option String := none
  username : Option String := none
  mobileNumber : Option String := none
deriving Repr, DecidableEq

/-- Embedding of `User.findOne({ email })`. -/
def findUserByEmail (email : String) (db : DB) : Option UserRec :=
  db.users.find? fun u => u.email == email

/-- Embedding of `User.findById(id)`. -/
def findUserById (uid : Nat) (db : DB) : Option UserRec :=
  db.users.find? fun u => u.uid == uid

/-- Embedding of `createUser`: reject duplicate email, then duplicate username (when a
truthy username was supplied), create the user (password hashed by the
pre-save hook, verification flags default `false`), then send the
verification OTP; a send failure only changes the success message. -/
def createUser (d : SignupData) (r : Nat) (sendFails : Bool) (now : Nat)
    (db : DB) : SvcRes PublicUser × DB :=
  match findUserByEmail d.email db with
  | some _ => (.fail "Email already registered" 400 none, db)
  | none =>
    let usernameTaken :=
      match d.username with
      | some un => un ≠ "" && db.users.any fun u => u.username == some un
      | none => false
    if usernameTaken then (.fail "Username already taken" 400 none, db)
    else
      let u : UserRec :=
        { uid := db.nextId, email := d.email, name := d.name,
          username := d.username, mobileNumber := d.mobileNumber,
          password := bcryptHash d.password, isEmailVerified := false,
          isMobileVerified := false, createdAt := now }
      let db1 : DB := { db with users := db.users ++ [u], nextId := db.nextId + 1 }
      let sent := sendVerificationOTP d.email r sendFails now db1
      match sent.2 with
      | .ok _ =>
        (.ok (toPublic u)
          (some "User created successfully. Verification OTP sent to email."), sent.1)
      | .error _ =>
        (.ok (toPublic u)
          (some "User created successfully but failed to send verification email."), sent.1)

/-- Effective access-token lifetime in minutes:
`NODE_ENV === 'development' ? 1 : (JWT_ACCESS_EXPIRATION_MINUTES || 30)`. -/
def accessMinutes (cfg : Config) : Nat :=
  if cfg.devMode then 1 else cfg.accessMins.getD 30

/-- Effective refresh-token lifetime in days:
`JWT_REFRESH_EXPIRATION_DAYS || 30`. -/
def refreshDaysEff (cfg : Config) : Nat := cfg.refreshDays.getD 30

/-- Embedding of `saveRefreshToken`: `Token.create({token, user, type:'refresh',
expires, blacklisted:false})`. -/
def saveRefreshToken (token : String) (userId expires : Nat) (db : DB) :
    TokenRec × DB :=
  let t : TokenRec :=
    { tid := db.nextId, token := token, user := userId, ttype := "refresh",
      expires := expires, blacklisted := false }
  (t, { db with tokens := db.tokens ++ [t], nextId := db.nextId + 1 })

/-- Embedding of `generateAuthTokens`: build the signed access token and refresh token
(`User.generateAccessToken` / `User.generateRefreshToken`), persist the
refresh token, then return the pair. -/
def generateAuthTokens (u : UserRec) (cfg : Config) (now : Nat) (db : DB) :
    TokenPair × DB :=
  let accessExp := now + accessMinutes cfg * 60000
  let accessToken := signAccess u.uid u.email (accessExp / 1000)
  let refreshExp := now + refreshDaysEff cfg * 86400000
  let refreshToken := signRefresh u.uid (refreshExp / 1000)
  let db1 := (saveRefreshToken refreshToken u.uid refreshExp db).2
  ({ accessToken := accessToken, accessExpires := accessExp,
     refreshToken := refreshToken, refreshExpires := refreshExp }, db1)

/-- Embedding of `verifyEmail`: check the OTP (which consumes it on match), then find
the user, set `isEmailVerified`, and issue a token pair. -/
def verifyEmail (email otp : String) (cfg : Config) (now : Nat) (db : DB) :
    SvcRes (PublicUser × TokenPair) × DB :=
  let vres := verifyOTP email otp "verification" now db
  let db1 := vres.2
  if !vres.1 then (.fail "Invalid or expired OTP" 400 none, db1)
  else
    match findUserByEmail email db1 with
    | none => (.fail "User not found" 404 none, db1)
    | some user =>
      let user' : UserRec := { user with isEmailVerified := true }
      let db2 : DB := { db1 with users := db1.users.map fun x =>
                          if x.uid == user.uid then user' else x }
      let gen := generateAuthTokens user' cfg now db2
      (.ok (toPublic user', gen.1) (some "Email verified successfully"), gen.2)

/-- Embedding of `resendVerificationOTP`: 404 on unknown user, 400 if already verified,
otherwise send a fresh OTP; a transporter failure propagates to the
catch-all and is returned as a 500. -/
def resendVerificationOTP (email : String) (r : Nat) (sendFails : Bool)
    (now : Nat) (db : DB) : SvcRes Unit × DB :=
  match findUserByEmail email db with
  | none => (.fail "User not found" 404 none, db)
  | some user =>
    if user.isEmailVerified then (.fail "Email already verified" 400 none, db)
    else
      let sent := sendVerificationOTP email r sendFails now db
      match sent.2 with
      | .error msg => (.fail msg 500 none, sent.1)
      | .ok _ => (.ok () (some "Verification OTP sent successfully"), sent.1)

/-- Embedding of `loginUser`: identical `Invalid credentials` 401 for unknown email and
for failed password comparison; unverified email triggers an OTP send and a
403 (a send failure propagates to the catch-all as a 500); otherwise issue
a token pair. -/
def loginUser (email password : String) (r : Nat) (sendFails : Bool)
    (cfg : Config) (now : Nat) (db : DB) :
    SvcRes (PublicUser × TokenPair) × DB :=
  match findUserByEmail email db with
  | none => (.fail "Invalid credentials" 401 none, db)
  | some user =>
    if !bcryptCompare password user.password then
      (.fail "Invalid credentials" 401 none, db)
    else if !user.isEmailVerified then
      let sent := sendVerificationOTP email r sendFails now db
      match sent.2 with
      | .error msg => (.fail msg 500 none, sent.1)
      | .ok _ =>
        (.fail "Email not verified" 403
          (some "Verification OTP has been sent to your email"), sent.1)
    else
      let gen := generateAuthTokens user cfg now db
      (.ok (toPublic user, gen.1) none, gen.2)

/-- The filter of `Token.findOne({token, type:'refresh', blacklisted:false,
expires:{$gt:now}})` used by `refreshTokens`. -/
def tokenLive (token : String) (now : Nat) (t : TokenRec) : Bool :=
  t.token == token && t.ttype == "refresh" && !t.blacklisted &&
    decide (now < t.expires)

/-- The filter of `Token.findOne({token, type:'refresh',
blacklisted:false})` used by `logoutUser` (no expiry condition). -/
def tokenUnblacklisted (token : String) (t : TokenRec) : Bool :=
  t.token == token && t.ttype == "refresh" && !t.blacklisted

/-- Embedding of `Token.findByIdAndUpdate(tid, { blacklisted: true })`. -/
def blacklistToken (tid : Nat) (db : DB) : DB :=
  { db with tokens := db.tokens.map fun t =>
      if t.tid == tid then { t with blacklisted := true } else t }

/-- Embedding of `refreshTokens`: only a stored, non-blacklisted, unexpired record is
honored; the owning user must still exist; the consumed record is
blacklisted before a fresh pair is issued. -/
def refreshTokens (refreshToken : String) (cfg : Config) (now : Nat)
    (db : DB) : SvcRes TokenPair × DB :=
  match db.tokens.find? (tokenLive refreshToken now) with
  | none => (.fail "Invalid refresh token" 401 none, db)
  | some tokenDoc =>
    match findUserById tokenDoc.user db with
    | none => (.fail "User not found" 401 none, db)
    | some user =>
      let db1 := blacklistToken tokenDoc.tid db
      let gen := generateAuthTokens user cfg now db1
      (.ok gen.1 none, gen.2)

/-- Embedding of `logoutUser`: only a stored, non-blacklisted record is honored (expiry
is not checked); the record is blacklisted. -/
def logoutUser (refreshToken : String) (db : DB) : SvcRes Unit × DB :=
  match db.tokens.find? (tokenUnblacklisted refreshToken) with
  | none => (.fail "Invalid refresh token" 400 none, db)
  | some tokenDoc =>
    (.ok () (some "Logged out successfully"), blacklistToken tokenDoc.tid db)

/-- Profile-update input: the three updatable fields plus the two fields an
input may carry that the service must ignore (model of an arbitrary JS
object restricted to the schema's attributes). `some v` means the key is
present with value `v`. -/
structure UpdateData where
  name : Option String := none
  username : Option String := none
  mobileNumber : Option String := none
  email : Option String := none
  password : Option String := none
deriving Repr, DecidableEq

/-- The mobile-number validator `/^[6-9]\d{9}$/` of the user schema. -/
def isValidMobile (s : String) : Bool :=
  match s.data with
  | c :: rest =>
    ('6' ≤ c && c ≤ '9') && rest.all Char.isDigit && s.length == 10
  | [] => false

/-- Embedding of `runValidators` on the update: name ≤ 50 chars, username ≤ 30 chars,
mobile number matching the pattern — checked only for the paths being
updated. -/
def updateValid (d : UpdateData) : Bool :=
  (match d.name with | some v => v.length ≤ 50 | none => true) &&
  (match d.username with | some v => v.length ≤ 30 | none => true) &&
  (match d.mobileNumber with | some v => isValidMobile v | none => true)

/-- Apply the filtered updates (`allowedUpdates = ['name', 'username',
'mobileNumber']`) to a user document. -/
def applyProfileUpdates (d : UpdateData) (u : UserRec) : UserRec :=
  { u with
    name := match d.name with | some v => some v | none => u.name,
    username := match d.username with | some v => some v | none => u.username,
    mobileNumber := match d.mobileNumber with | some v => some v | none => u.mobileNumber }

/-- Embedding of `updateUserProfile`: reject a (truthy) username already owned by a
different user; apply only `name`/`username`/`mobileNumber` via
`findByIdAndUpdate` with `runValidators` (a validation error is caught by
the catch-all as a 500); 404 when the user does not exist. -/
def updateUserProfile (userId : Nat) (d : UpdateData) (db : DB) :
    SvcRes PublicUser × DB :=
  let usernameTaken :=
    match d.username with
    | some un => un ≠ "" && db.users.any fun u =>
        u.username == some un && u.uid ≠ userId
    | none => false
  if usernameTaken then (.fail "Username already taken" 400 none, db)
  else if !updateValid d then (.fail "Validation failed" 500 none, db)
  else
    match findUserById userId db with
    | none => (.fail "User not found" 404 none, db)
    | some user =>
      let user' := applyProfileUpdates d user
      let db1 : DB := { db with users := db.users.map fun x =>
                          if x.uid == userId then applyProfileUpdates d x else x }
      (.ok (toPublic user') none, db1)

/-! ## Concrete fixtures used by witnesses and counterexamples -/

/-- The empty database. -/
def emptyDB : DB := { users := [], tokens := [], otps := [], nextId := 0 }

/-- A verified sample user. -/
def sampleUserV : UserRec :=
  { uid := 1, email := "a@x.com", name := none, username := none,
    mobileNumber := none, password := bcryptHash "pw123",
    isEmailVerified := true, isMobileVerified := false, createdAt := 0 }

/-- The same user, email not yet verified. -/
def sampleUserU : UserRec := { sampleUserV with isEmailVerified := false }

/-- A database holding only the verified sample user. -/
def dbV : DB := { users := [sampleUserV], tokens := [], otps := [], nextId := 2 }

/-- A database holding only the unverified sample user. -/
def dbU : DB := { users := [sampleUserU], tokens := [], otps := [], nextId := 2 }

/-- A live (non-blacklisted, far-future-expiring) refresh-token record for
the sample user. -/
def liveTok : TokenRec :=
  { tid := 0, token := "t0", user := 1, ttype := "refresh",
    expires := 1000000000000, blacklisted := false }

/-- Verified sample user together with a live refresh token. -/
def dbLiveTok : DB :=
  { users := [sampleUserV], tokens := [liveTok], otps := [], nextId := 2 }

/-- The token pair minted for the sample user at time 0 under the default
configuration. -/
def tpSample : TokenPair :=
  { accessToken := "acc.1.a@x.com.1800", accessExpires := 1800000,
    refreshToken := "ref.1.2592000", refreshExpires := 2592000000 }

/-- The state after the sample refresh run. -/
def dbAfterRefresh : DB := (refreshTokens "t0" {} 0 dbLiveTok).2

/-- The state after the sample login run. -/
def dbAfterLogin : DB := (loginUser "a@x.com" "pw123" 0 false {} 0 dbV).2

/-- An unexpired, unused verification OTP for the sample user's email. -/
def sampleOtp : OtpRec :=
  { oid := 0, email := "a@x.com", otp := "123456", purpose := "verification",
    expires := 100, isUsed := false, createdAt := 0 }

/-- Unverified sample user together with an active verification OTP. -/
def dbOtp : DB :=
  { users := [sampleUserU], tokens := [], otps := [sampleOtp], nextId := 2 }

/-- Active verification OTP but no user record for its email. -/
def dbOtpNoUser : DB :=
  { users := [], tokens := [], otps := [sampleOtp], nextId := 1 }

/-- The state after the sample email-verification run. -/
def dbAfterVerify : DB := (verifyEmail "a@x.com" "123456" {} 0 dbOtp).2

/-- An expired but not blacklisted refresh-token record. -/
def expiredTok : TokenRec :=
  { tid := 0, token := "t0", user := 1, ttype := "refresh", expires := 5,
    blacklisted := false }

/-- Verified sample user together with the expired token. -/
def dbExpiredTok : DB :=
  { users := [sampleUserV], tokens := [expiredTok], otps := [], nextId := 2 }

/-- A live refresh-token record whose owning user id (7) has no user
record. -/
def orphanTok : TokenRec :=
  { tid := 0, token := "t0", user := 7, ttype := "refresh", expires := 1000,
    blacklisted := false }

/-- The orphan token's database: no users at all. -/
def dbOrphanTok : DB :=
  { users := [], tokens := [orphanTok], otps := [], nextId := 1 }

/-! ## Helper lemmas -/

/-- In a list of length at most one, any two members are equal. -/
theorem length_le_one_mem_eq {α : Type} {l : List α} (h : l.length ≤ 1)
    {a b : α} (ha : a ∈ l) (hb : b ∈ l) : a = b := by
  match l with
  | [] => cases ha
  | [x] =>
    rw [List.mem_singleton] at ha hb
    rw [ha, hb]
  | x :: y :: xs => simp at h

/-- The picker `pickLatest` returns a member of its list. -/
theorem pickLatest_mem : ∀ {l : List OtpRec} {o : OtpRec},
    pickLatest l = some o → o ∈ l := by
  intro l
  induction l with
  | nil => intro o h; simp [pickLatest] at h
  | cons x xs ih =>
    intro o h
    rw [pickLatest] at h
    cases hx : pickLatest xs with
    | none =>
      rw [hx] at h
      cases h
      exact List.mem_cons_self x xs
    | some b =>
      rw [hx] at h
      dsimp only at h
      by_cases hc : x.createdAt < b.createdAt
      · rw [if_pos hc] at h
        cases h
        exact List.mem_cons_of_mem x (ih hx)
      · rw [if_neg hc] at h
        cases h
        exact List.mem_cons_self x xs

/-- The picker `pickLatest` fails exactly on the empty list. -/
theorem pickLatest_eq_none : ∀ {l : List OtpRec},
    pickLatest l = none ↔ l = [] := by
  intro l
  cases l with
  | nil => simp [pickLatest]
  | cons x xs =>
    constructor
    · intro h
      rw [pickLatest] at h
      cases hx : pickLatest xs <;> rw [hx] at h <;> dsimp only at h
      · cases h
      · split at h <;> cases h
    · intro h; cases h

/-- With at most one stored record carrying a token string, two members
carrying it coincide. -/
theorem countP_le_one_eq {l : List TokenRec} {t : String}
    (h : (l.countP fun x => x.token == t) ≤ 1)
    {a b : TokenRec} (ha : a ∈ l) (hat : a.token = t)
    (hb : b ∈ l) (hbt : b.token = t) : a = b := by
  rw [List.countP_eq_length_filter] at h
  exact length_le_one_mem_eq h
    (List.mem_filter.mpr ⟨ha, by simp [hat]⟩)
    (List.mem_filter.mpr ⟨hb, by simp [hbt]⟩)

/-- The operation `generateAuthTokens` appends exactly one fresh record: the returned
refresh token, non-blacklisted, with the returned expiry. -/
theorem generateAuthTokens_tokens (u : UserRec) (cfg : Config) (now : Nat)
    (st : DB) :
    (generateAuthTokens u cfg now st).2.tokens
      = st.tokens ++
        [{ tid := st.nextId,
           token := (generateAuthTokens u cfg now st).1.refreshToken,
           user := u.uid, ttype := "refresh",
           expires := (generateAuthTokens u cfg now st).1.refreshExpires,
           blacklisted := false }] := rfl

/-- Inversion of a successful `refreshTokens` run: the live record that was
found, the resolved user, and the shape of the result. -/
theorem refreshTokens_ok_inv
    (t : String) (cfg : Config) (now : Nat) (st st' : DB) (tp : TokenPair)
    (msg : Option String)
    (hrun : refreshTokens t cfg now st = (.ok tp msg, st')) :
    ∃ td user, st.tokens.find? (tokenLive t now) = some td
      ∧ findUserById td.user st = some user
      ∧ tp = (generateAuthTokens user cfg now (blacklistToken td.tid st)).1
      ∧ st' = (generateAuthTokens user cfg now (blacklistToken td.tid st)).2 := by
  unfold refreshTokens at hrun
  cases hfind : st.tokens.find? (tokenLive t now) with
  | none => rw [hfind] at hrun; simp at hrun
  | some td =>
    rw [hfind] at hrun
    dsimp only at hrun
    cases huser : findUserById td.user st with
    | none => rw [huser] at hrun; simp at hrun
    | some user =>
      rw [huser] at hrun
      dsimp only at hrun
      simp only [Prod.mk.injEq, SvcRes.ok.injEq] at hrun
      exact ⟨td, user, rfl, huser, hrun.1.1.symm, hrun.2.symm⟩

/-- The record `generateAuthTokens` persists is in the resulting store,
carries the returned refresh token and expiry, and is not blacklisted. -/
theorem generateAuthTokens_recorded (u : UserRec) (cfg : Config) (now : Nat)
    (st : DB) :
    ∃ rec ∈ (generateAuthTokens u cfg now st).2.tokens,
      rec.token = (generateAuthTokens u cfg now st).1.refreshToken
      ∧ rec.blacklisted = false
      ∧ rec.expires = (generateAuthTokens u cfg now st).1.refreshExpires := by
  refine ⟨{ tid := st.nextId,
            token := (generateAuthTokens u cfg now st).1.refreshToken,
            user := u.uid, ttype := "refresh",
            expires := (generateAuthTokens u cfg now st).1.refreshExpires,
            blacklisted := false }, ?_, rfl, rfl, rfl⟩
  rw [generateAuthTokens_tokens]
  exact List.mem_append_right _ (List.mem_singleton_self _)

/-- The operation `generateAuthTokens` does not touch the OTP collection. -/
theorem generateAuthTokens_otps (u : UserRec) (cfg : Config) (now : Nat)
    (st : DB) : (generateAuthTokens u cfg now st).2.otps = st.otps := rfl

/-- A failed `verifyOTP` leaves the store unchanged. -/
theorem verifyOTP_false_state (email code purpose : String) (now : Nat)
    (st : DB) (h : (verifyOTP email code purpose now st).1 = false) :
    (verifyOTP email code purpose now st).2 = st := by
  unfold verifyOTP at h ⊢
  cases ho : findLatestOtp email purpose now st
  · rfl
  · rename_i o
    rw [ho] at h
    dsimp only at h ⊢
    by_cases hc : o.otp ≠ code
    · rw [if_pos hc]
    · rw [if_neg hc] at h
      simp at h

/-- A successful `verifyOTP` found the latest active code, it matched
exactly, and the store now carries it marked used. -/
theorem verifyOTP_true_inv (email code purpose : String) (now : Nat)
    (st : DB) (h : (verifyOTP email code purpose now st).1 = true) :
    ∃ o, findLatestOtp email purpose now st = some o ∧ o.otp = code
      ∧ (verifyOTP email code purpose now st).2 = markOtpUsed o.oid st := by
  unfold verifyOTP at h ⊢
  cases ho : findLatestOtp email purpose now st
  · rw [ho] at h
    simp at h
  · rename_i o
    rw [ho] at h
    dsimp only at h ⊢
    by_cases hc : o.otp ≠ code
    · rw [if_pos hc] at h
      simp at h
    · have hc' : o.otp = code := not_not.mp hc
      exact ⟨o, rfl, hc', by rw [if_neg hc]⟩

/-- After the latest active OTP for a pair has been marked used, no OTP
for that pair is active at any later time, provided at most one was
active to begin with. -/
theorem no_active_after_mark
    (email purpose : String) (now now' : Nat) (l : List OtpRec) (o : OtpRec)
    (hle : now ≤ now')
    (huniq : (l.filter (otpActive email purpose now)).length ≤ 1)
    (ho : pickLatest (l.filter (otpActive email purpose now)) = some o) :
    (l.map fun x => if x.oid == o.oid then { x with isUsed := true } else x).filter
      (otpActive email purpose now') = [] := by
  rw [List.filter_eq_nil_iff]
  intro y hy
  obtain ⟨x, hx_mem, hxy⟩ := List.mem_map.mp hy
  by_cases hc : x.oid == o.oid
  · rw [if_pos hc] at hxy
    rw [← hxy]
    simp [otpActive]
  · rw [if_neg hc] at hxy
    subst hxy
    intro hact
    have hact_now : otpActive email purpose now x = true := by
      simp only [otpActive, Bool.and_eq_true, beq_iff_eq, Bool.not_eq_true',
        decide_eq_true_eq] at hact ⊢
      exact ⟨hact.1, by omega⟩
    have hx_f : x ∈ l.filter (otpActive email purpose now) :=
      List.mem_filter.mpr ⟨hx_mem, hact_now⟩
    have ho_mem : o ∈ l.filter (otpActive email purpose now) := pickLatest_mem ho
    have hxo : x = o := length_le_one_mem_eq huniq hx_f ho_mem
    rw [hxo] at hc
    simp at hc

/-! ## Claim theorems -/

/-- C1: once `refresh(t)` succeeds, the state holds no live record with
token value `t` any more (the consumed record was blacklisted, and refresh
and logout accept only a stored record with `blacklisted = false`), so a
subsequent `refresh(t)` — at any later time — and a subsequent `logout(t)`
are both rejected with the `Invalid refresh token` error.  The hypotheses:
the store held at most one record with value `t` (token strings are unique
per the schema's contract), and the newly minted token differs from `t`
(distinct JWT payload). -/
theorem refresh_rotation_single_use
    (t : String) (cfg cfg' : Config) (now now' : Nat) (st st' : DB)
    (tp : TokenPair) (msg : Option String)
    (hrun : refreshTokens t cfg now st = (.ok tp msg, st'))
    (huniq : (st.tokens.countP fun x => x.token == t) ≤ 1)
    (hfresh : tp.refreshToken ≠ t) :
    (refreshTokens t cfg' now' st').1 = .fail "Invalid refresh token" 401 none
    ∧ (logoutUser t st').1 = .fail "Invalid refresh token" 400 none := by
  obtain ⟨td, user, hfind, huser, htp, hst⟩ :=
    refreshTokens_ok_inv t cfg now st st' tp msg hrun
  have htd_mem : td ∈ st.tokens := List.mem_of_find?_eq_some hfind
  have htd_p : tokenLive t now td = true := List.find?_some hfind
  have htd_tok : td.token = t := by
    simp only [tokenLive, Bool.and_eq_true, beq_iff_eq] at htd_p
    exact htd_p.1.1.1
  have hst_tokens : st'.tokens
      = (st.tokens.map fun x =>
          if x.tid == td.tid then { x with blacklisted := true } else x)
        ++ [{ tid := (blacklistToken td.tid st).nextId,
              token := tp.refreshToken, user := user.uid, ttype := "refresh",
              expires := tp.refreshExpires, blacklisted := false }] := by
    rw [hst, htp]
    exact generateAuthTokens_tokens user cfg now (blacklistToken td.tid st)
  have hmain : ∀ y ∈ st'.tokens, y.token = t → y.blacklisted = true := by
    intro y hy hyt
    rw [hst_tokens] at hy
    rcases List.mem_append.mp hy with hy1 | hy2
    · obtain ⟨x, hx_mem, hxy⟩ := List.mem_map.mp hy1
      by_cases hc : x.tid == td.tid
      · rw [if_pos hc] at hxy
        rw [← hxy]
      · rw [if_neg hc] at hxy
        subst hxy
        have hxd : x = td := countP_le_one_eq huniq hx_mem hyt htd_mem htd_tok
        rw [hxd] at hc
        simp at hc
    · rw [List.mem_singleton] at hy2
      subst hy2
      exact absurd hyt hfresh
  have hfind2 : st'.tokens.find? (tokenLive t now') = none := by
    rw [List.find?_eq_none]
    intro y hy
    simp only [tokenLive, Bool.and_eq_true, beq_iff_eq, Bool.not_eq_true',
      decide_eq_true_eq]
    rintro ⟨⟨⟨h1, _⟩, h2⟩, _⟩
    rw [hmain y hy h1] at h2
    cases h2
  have hfind3 : st'.tokens.find? (tokenUnblacklisted t) = none := by
    rw [List.find?_eq_none]
    intro y hy
    simp only [tokenUnblacklisted, Bool.and_eq_true, beq_iff_eq,
      Bool.not_eq_true']
    rintro ⟨⟨h1, _⟩, h2⟩
    rw [hmain y hy h1] at h2
    cases h2
  exact ⟨by simp [refreshTokens, hfind2], by simp [logoutUser, hfind3]⟩

/-- C1 witness: a concrete successful refresh of `"t0"`, after which both
refresh and logout of `"t0"` are rejected. -/
theorem refresh_rotation_witness :
    (refreshTokens "t0" {} 0 dbLiveTok = (.ok tpSample none, dbAfterRefresh)
      ∧ (dbLiveTok.tokens.countP fun x => x.token == "t0") ≤ 1
      ∧ tpSample.refreshToken ≠ "t0")
    ∧ (refreshTokens "t0" {} 99 dbAfterRefresh).1 = .fail "Invalid refresh token" 401 none
    ∧ (logoutUser "t0" dbAfterRefresh).1 = .fail "Invalid refresh token" 400 none :=
  ⟨⟨by decide, by decide, by decide⟩,
   refresh_rotation_single_use "t0" {} {} 0 99 dbLiveTok dbAfterRefresh
     tpSample none (by decide) (by decide) (by decide)⟩

/-- C4: every OTP issuance generates a 6-digit numeric code in
`[100000, 999999]` (every value in that range is attainable, so the
uniform draw on the abstracted randomness `r` stays uniform on the range);
all previously stored codes for the `(email, purpose)` pair are deleted
before the new code is inserted; and the new code is persisted with expiry
exactly 10 minutes after issuance and `isUsed = false`. -/
theorem otp_issuance_spec (email : String) (r now : Nat) (st : DB) :
    (∃ n : Nat, generateOTP r = toString n ∧ 100000 ≤ n ∧ n ≤ 999999 ∧
      (Nat.digits 10 n).length = 6)
    ∧ (∀ v : Nat, 100000 ≤ v → v ≤ 999999 → ∃ rv : Nat, generateOTP rv = toString v)
    ∧ (saveOTP email (generateOTP r) "verification" now st).2.otps
        = st.otps.filter (fun x => !(x.email == email && x.purpose == "verification"))
          ++ [(saveOTP email (generateOTP r) "verification" now st).1]
    ∧ (saveOTP email (generateOTP r) "verification" now st).1.otp = generateOTP r
    ∧ (saveOTP email (generateOTP r) "verification" now st).1.expires = now + 10 * 60000
    ∧ (saveOTP email (generateOTP r) "verification" now st).1.isUsed = false := by
  refine ⟨⟨100000 + r % 900000, rfl, ?_, ?_, ?_⟩, ?_, rfl, rfl, rfl, rfl⟩
  · omega
  · have := Nat.mod_lt r (y := 900000) (by omega)
    omega
  · have hmod := Nat.mod_lt r (y := 900000) (by omega)
    rw [Nat.digits_len 10 _ (by omega) (by omega)]
    rw [Nat.log_eq_of_pow_le_of_lt_pow (b := 10) (m := 5) (by omega) (by omega)]
  · intro v h1 h2
    refine ⟨v - 100000, ?_⟩
    unfold generateOTP
    have hm : (v - 100000) % 900000 = v - 100000 := Nat.mod_eq_of_lt (by omega)
    rw [hm]
    have hv : 100000 + (v - 100000) = v := by omega
    rw [hv]

/-- C4 witness: instantiation at `r = 7`, range value `v = 123456`. -/
theorem otp_issuance_witness :
    (∃ n : Nat, generateOTP 7 = toString n ∧ 100000 ≤ n ∧ n ≤ 999999 ∧
      (Nat.digits 10 n).length = 6)
    ∧ (100000 ≤ 123456 ∧ 123456 ≤ 999999
        ∧ ∃ rv : Nat, generateOTP rv = toString 123456) :=
  ⟨(otp_issuance_spec "a@x.com" 7 0 emptyDB).1,
   by decide, by decide,
   (otp_issuance_spec "a@x.com" 7 0 emptyDB).2.1 123456 (by decide) (by decide)⟩

/-- C6: login with an email matching no stored user and login with an
existing email but failing password comparison return the identical error:
`Invalid credentials`, status 401, no extra message — the two rejections
are indistinguishable. -/
theorem login_rejections_indistinguishable
    (e1 p1 e2 p2 : String) (u : UserRec) (r1 r2 : Nat) (sf1 sf2 : Bool)
    (cfg1 cfg2 : Config) (now1 now2 : Nat) (st1 st2 : DB)
    (h1 : findUserByEmail e1 st1 = none)
    (h2 : findUserByEmail e2 st2 = some u)
    (h3 : bcryptCompare p2 u.password = false) :
    (loginUser e1 p1 r1 sf1 cfg1 now1 st1).1 = .fail "Invalid credentials" 401 none
    ∧ (loginUser e2 p2 r2 sf2 cfg2 now2 st2).1 = .fail "Invalid credentials" 401 none
    ∧ (loginUser e1 p1 r1 sf1 cfg1 now1 st1).1 = (loginUser e2 p2 r2 sf2 cfg2 now2 st2).1 := by
  refine ⟨?_, ?_, ?_⟩ <;> simp [loginUser, h1, h2, h3]

/-- C6 witness: empty store versus the sample user with a wrong password. -/
theorem login_rejections_witness :
    (findUserByEmail "b@x.com" emptyDB = none
      ∧ findUserByEmail "a@x.com" dbV = some sampleUserV
      ∧ bcryptCompare "wrong" sampleUserV.password = false)
    ∧ (loginUser "b@x.com" "p" 0 false {} 0 emptyDB).1 = .fail "Invalid credentials" 401 none
    ∧ (loginUser "a@x.com" "wrong" 0 false {} 0 dbV).1 = .fail "Invalid credentials" 401 none
    ∧ (loginUser "b@x.com" "p" 0 false {} 0 emptyDB).1
        = (loginUser "a@x.com" "wrong" 0 false {} 0 dbV).1 :=
  ⟨⟨by decide, by decide, by decide⟩,
   login_rejections_indistinguishable "b@x.com" "p" "a@x.com" "wrong"
     sampleUserV 0 0 false false {} {} 0 0 emptyDB dbV
     (by decide) (by decide) (by decide)⟩

/-- C2 counterexample: the stored token `"t0"` is expired at time 10
(`expires = 5`) and not blacklisted; refresh rejects it, but logout
accepts it and succeeds — contradicting the claim that both operations
reject an expired token. -/
theorem logout_accepts_expired_counterexample :
    expiredTok.blacklisted = false ∧ expiredTok.expires < 10
    ∧ (refreshTokens "t0" {} 10 dbExpiredTok).1 = .fail "Invalid refresh token" 401 none
    ∧ (logoutUser "t0" dbExpiredTok).1 = .ok () (some "Logged out successfully") := by
  exact ⟨by decide, by decide, by decide, by decide⟩

/-- C2 amended: `refresh` rejects a token all of whose stored records are
blacklisted or expired (leaving the store unchanged); `logout` checks only
the blacklist flag, so it rejects a token all of whose records are
blacklisted, but an expired non-blacklisted token is accepted by logout. -/
theorem dead_tokens_rejected
    (t : String) (cfg : Config) (now : Nat) (st : DB)
    (h : ∀ x ∈ st.tokens, x.token = t → x.blacklisted = true ∨ x.expires ≤ now) :
    refreshTokens t cfg now st = (.fail "Invalid refresh token" 401 none, st)
    ∧ ((∀ x ∈ st.tokens, x.token = t → x.blacklisted = true) →
        logoutUser t st = (.fail "Invalid refresh token" 400 none, st)) := by
  constructor
  · have hfind : st.tokens.find? (tokenLive t now) = none := by
      rw [List.find?_eq_none]
      intro x hx
      simp only [tokenLive, Bool.and_eq_true, beq_iff_eq, Bool.not_eq_true',
        decide_eq_true_eq]
      rintro ⟨⟨⟨hxt, _⟩, hb⟩, hexp⟩
      rcases h x hx hxt with hb' | he
      · rw [hb'] at hb; cases hb
      · omega
    simp [refreshTokens, hfind]
  · intro hall
    have hfind : st.tokens.find? (tokenUnblacklisted t) = none := by
      rw [List.find?_eq_none]
      intro x hx
      simp only [tokenUnblacklisted, Bool.and_eq_true, beq_iff_eq,
        Bool.not_eq_true']
      rintro ⟨⟨hxt, _⟩, hb⟩
      rw [hall x hx hxt] at hb
      cases hb
    simp [logoutUser, hfind]

/-- C2 amendment witness: a blacklisted-token store where both refresh and
logout reject. -/
theorem dead_tokens_rejected_witness :
    (∀ x ∈ ({ dbExpiredTok with
        tokens := [{ expiredTok with blacklisted := true }] } : DB).tokens,
      x.token = "t0" → x.blacklisted = true ∨ x.expires ≤ 10)
    ∧ refreshTokens "t0" {} 10
        { dbExpiredTok with tokens := [{ expiredTok with blacklisted := true }] }
        = (.fail "Invalid refresh token" 401 none,
           { dbExpiredTok with tokens := [{ expiredTok with blacklisted := true }] })
    ∧ logoutUser "t0"
        { dbExpiredTok with tokens := [{ expiredTok with blacklisted := true }] }
        = (.fail "Invalid refresh token" 400 none,
           { dbExpiredTok with tokens := [{ expiredTok with blacklisted := true }] }) :=
  ⟨by decide,
   (dead_tokens_rejected "t0" {} 10 _ (by decide)).1,
   (dead_tokens_rejected "t0" {} 10 _ (by decide)).2 (by decide)⟩

/-- C8: the refresh token returned by any successful token-pair issuance —
at login, at email verification, and at refresh — is recorded in the
token store with its expiry and `blacklisted = false` in the state handed
back with the pair (`generateAuthTokens` persists the record before
returning, appending exactly one record); and refresh/logout honor a
token only if a stored record exists: a token value absent from the store
is rejected by both regardless of its shape. -/
theorem issued_refresh_recorded_store_authoritative
    (u : UserRec) (cfg : Config) (now : Nat) (st : DB) (t e p : String)
    (r : Nat) (sf : Bool) :
    (∃ rec, (generateAuthTokens u cfg now st).2.tokens = st.tokens ++ [rec]
      ∧ rec.token = (generateAuthTokens u cfg now st).1.refreshToken
      ∧ rec.expires = (generateAuthTokens u cfg now st).1.refreshExpires
      ∧ rec.blacklisted = false ∧ rec.user = u.uid ∧ rec.ttype = "refresh")
    ∧ (∀ pu tp m st', loginUser e p r sf cfg now st = (.ok (pu, tp) m, st') →
        ∃ rec ∈ st'.tokens, rec.token = tp.refreshToken
          ∧ rec.blacklisted = false ∧ rec.expires = tp.refreshExpires)
    ∧ (∀ pu tp m st', verifyEmail e p cfg now st = (.ok (pu, tp) m, st') →
        ∃ rec ∈ st'.tokens, rec.token = tp.refreshToken
          ∧ rec.blacklisted = false ∧ rec.expires = tp.refreshExpires)
    ∧ (∀ tp m st', refreshTokens t cfg now st = (.ok tp m, st') →
        ∃ rec ∈ st'.tokens, rec.token = tp.refreshToken
          ∧ rec.blacklisted = false ∧ rec.expires = tp.refreshExpires)
    ∧ ((∀ x ∈ st.tokens, x.token ≠ t) →
        refreshTokens t cfg now st = (.fail "Invalid refresh token" 401 none, st)
        ∧ logoutUser t st = (.fail "Invalid refresh token" 400 none, st)) := by
  refine ⟨?_, ?_, ?_, ?_, ?_⟩
  · exact ⟨_, generateAuthTokens_tokens u cfg now st, rfl, rfl, rfl, rfl, rfl⟩
  · intro pu tp m st' hrun
    unfold loginUser at hrun
    cases hu : findUserByEmail e st with
    | none => rw [hu] at hrun; simp at hrun
    | some user =>
      rw [hu] at hrun
      dsimp only at hrun
      split at hrun
      · simp at hrun
      · split at hrun
        · split at hrun <;> simp at hrun
        · simp only [Prod.mk.injEq, SvcRes.ok.injEq] at hrun
          obtain ⟨⟨⟨hpu, htp⟩, hm⟩, hst⟩ := hrun
          rw [← hst, ← htp]
          exact generateAuthTokens_recorded user cfg now st
  · intro pu tp m st' hrun
    unfold verifyEmail at hrun
    dsimp only at hrun
    split at hrun
    · simp at hrun
    · split at hrun
      · simp at hrun
      · simp only [Prod.mk.injEq, SvcRes.ok.injEq] at hrun
        obtain ⟨⟨⟨hpu, htp⟩, hm⟩, hst⟩ := hrun
        rw [← hst, ← htp]
        exact generateAuthTokens_recorded _ cfg now _
  · intro tp m st' hrun
    obtain ⟨td, user, hfind, huser, htp, hst⟩ :=
      refreshTokens_ok_inv t cfg now st st' tp m hrun
    rw [hst, htp]
    exact generateAuthTokens_recorded user cfg now (blacklistToken td.tid st)
  · intro habsent
    constructor
    · have hfind : st.tokens.find? (tokenLive t now) = none := by
        rw [List.find?_eq_none]
        intro x hx
        simp only [tokenLive, Bool.and_eq_true, beq_iff_eq]
        rintro ⟨⟨⟨hxt, _⟩, _⟩, _⟩
        exact habsent x hx hxt
      simp [refreshTokens, hfind]
    · have hfind : st.tokens.find? (tokenUnblacklisted t) = none := by
        rw [List.find?_eq_none]
        intro x hx
        simp only [tokenUnblacklisted, Bool.and_eq_true, beq_iff_eq]
        rintro ⟨⟨hxt, _⟩, _⟩
        exact habsent x hx hxt
      simp [logoutUser, hfind]

/-- C8 witness: a concrete successful login whose refresh token is in the
resulting store, and rejection of a token absent from the empty store. -/
theorem issued_refresh_recorded_witness :
    (loginUser "a@x.com" "pw123" 0 false {} 0 dbV
        = (.ok (toPublic sampleUserV, tpSample) none, dbAfterLogin)
      ∧ (∀ x ∈ emptyDB.tokens, x.token ≠ "zzz"))
    ∧ (∃ rec ∈ dbAfterLogin.tokens, rec.token = tpSample.refreshToken
        ∧ rec.blacklisted = false ∧ rec.expires = tpSample.refreshExpires)
    ∧ refreshTokens "zzz" {} 0 emptyDB
        = (.fail "Invalid refresh token" 401 none, emptyDB)
    ∧ logoutUser "zzz" emptyDB = (.fail "Invalid refresh token" 400 none, emptyDB) :=
  ⟨⟨by decide, by decide⟩,
   (issued_refresh_recorded_store_authoritative sampleUserV {} 0 dbV "zzz"
      "a@x.com" "pw123" 0 false).2.1 (toPublic sampleUserV) tpSample none
      dbAfterLogin (by decide),
   ((issued_refresh_recorded_store_authoritative sampleUserV {} 0 emptyDB
      "zzz" "a@x.com" "pw123" 0 false).2.2.2.2 (by decide)).1,
   ((issued_refresh_recorded_store_authoritative sampleUserV {} 0 emptyDB
      "zzz" "a@x.com" "pw123" 0 false).2.2.2.2 (by decide)).2⟩

/-- C7 counterexample: with a live stored token record whose owning user
(id 7) has no user record, refresh rejects with message `User not found`,
not the `Invalid refresh token` message used for a missing or blacklisted
record — only the 401 status coincides, so the signals are not identical. -/
theorem refresh_orphan_counterexample :
    (refreshTokens "t0" {} 0 dbOrphanTok).1 = .fail "User not found" 401 none
    ∧ (refreshTokens "zz" {} 0 dbOrphanTok).1 = .fail "Invalid refresh token" 401 none
    ∧ (SvcRes.fail "User not found" 401 none : SvcRes TokenPair)
        ≠ .fail "Invalid refresh token" 401 none := by
  exact ⟨by decide, by decide, by decide⟩

/-- C7 amended: when a stored, non-blacklisted, unexpired record matches
the token but the owning user no longer exists, refresh rejects with
status 401 — sharing the status, but not the message, of the
missing-record case: the error reads `User not found`. -/
theorem refresh_orphan_rejected
    (t : String) (cfg : Config) (now : Nat) (st : DB) (td : TokenRec)
    (hfind : st.tokens.find? (tokenLive t now) = some td)
    (hnouser : findUserById td.user st = none) :
    refreshTokens t cfg now st = (.fail "User not found" 401 none, st) := by
  simp [refreshTokens, hfind, hnouser]

/-- C3: email verification succeeds only when the submitted code exactly
matches the most recently created, unused, unexpired stored code for
`(email, 'verification')`; on success that code is marked used, so a
second verification with the same code is rejected with
`Invalid or expired OTP`; and any mismatch, absence, expired or
already-used case yields the same `Invalid or expired OTP`/400 rejection,
leaving the store unchanged.  Hypotheses: at most one code is active for
the pair (the issuance path deletes prior codes before inserting), and
the retry is not earlier in time. -/
theorem verify_email_exact_match_single_use
    (email code : String) (cfg cfg' : Config) (now now' : Nat) (st : DB)
    (hle : now ≤ now')
    (huniq : (activeOtps email "verification" now st).length ≤ 1) :
    ((verifyOTP email code "verification" now st).1 = false →
      verifyEmail email code cfg now st
        = (.fail "Invalid or expired OTP" 400 none, st))
    ∧ ((verifyOTP email code "verification" now st).1 = true →
      ∃ o, findLatestOtp email "verification" now st = some o ∧ o.otp = code)
    ∧ (∀ pu tp m st', verifyEmail email code cfg now st = (.ok (pu, tp) m, st') →
        (∃ o, findLatestOtp email "verification" now st = some o ∧ o.otp = code
          ∧ ∀ x ∈ st'.otps, x.oid = o.oid → x.isUsed = true)
        ∧ (verifyEmail email code cfg' now' st').1
            = .fail "Invalid or expired OTP" 400 none) := by
  refine ⟨?_, ?_, ?_⟩
  · intro hf
    have hstate := verifyOTP_false_state email code "verification" now st hf
    unfold verifyEmail
    dsimp only
    rw [hf, hstate]
    rfl
  · intro ht
    obtain ⟨o, ho, hcode, _⟩ := verifyOTP_true_inv email code "verification" now st ht
    exact ⟨o, ho, hcode⟩
  · intro pu tp m st' hrun
    unfold verifyEmail at hrun
    dsimp only at hrun
    split at hrun
    · simp at hrun
    · rename_i hcond
      split at hrun
      · simp at hrun
      · rename_i user hu
        simp only [Prod.mk.injEq, SvcRes.ok.injEq] at hrun
        obtain ⟨⟨⟨hpu, htp⟩, hm⟩, hst⟩ := hrun
        have hv : (verifyOTP email code "verification" now st).1 = true := by
          by_contra hvf
          rw [Bool.not_eq_true] at hvf
          exact hcond (by rw [hvf]; rfl)
        obtain ⟨o, ho, hcode, hstate⟩ :=
          verifyOTP_true_inv email code "verification" now st hv
        have hotps : st'.otps = st.otps.map fun x =>
            if x.oid == o.oid then { x with isUsed := true } else x := by
          rw [← hst, generateAuthTokens_otps]
          dsimp only
          rw [hstate]
          rfl
        refine ⟨⟨o, ho, hcode, ?_⟩, ?_⟩
        · intro x hx hxoid
          rw [hotps] at hx
          obtain ⟨x0, hx0_mem, hx0⟩ := List.mem_map.mp hx
          by_cases hc : x0.oid == o.oid
          · rw [if_pos hc] at hx0
            rw [← hx0]
          · rw [if_neg hc] at hx0
            subst hx0
            rw [hxoid] at hc
            simp at hc
        · have ho' := ho
          unfold findLatestOtp activeOtps at ho'
          unfold activeOtps at huniq
          have hnil := no_active_after_mark email "verification" now now'
            st.otps o hle huniq ho'
          have hnone : findLatestOtp email "verification" now' st' = none := by
            unfold findLatestOtp activeOtps
            rw [hotps, hnil]
            rfl
          have hv2 : (verifyOTP email code "verification" now' st').1 = false := by
            unfold verifyOTP
            rw [hnone]
          unfold verifyEmail
          dsimp only
          rw [hv2]
          rfl

/-- C3 witness: the sample OTP verifies once, and the second attempt with
the same code is rejected. -/
theorem verify_email_exact_match_witness :
    ((0 : Nat) ≤ 1 ∧ (activeOtps "a@x.com" "verification" 0 dbOtp).length ≤ 1
      ∧ verifyEmail "a@x.com" "123456" {} 0 dbOtp
          = (.ok (toPublic { sampleUserU with isEmailVerified := true }, tpSample)
              (some "Email verified successfully"), dbAfterVerify))
    ∧ ((∃ o, findLatestOtp "a@x.com" "verification" 0 dbOtp = some o
          ∧ o.otp = "123456"
          ∧ ∀ x ∈ dbAfterVerify.otps, x.oid = o.oid → x.isUsed = true)
        ∧ (verifyEmail "a@x.com" "123456" {} 1 dbAfterVerify).1
            = .fail "Invalid or expired OTP" 400 none) :=
  ⟨⟨by decide, by decide, by decide⟩,
   (verify_email_exact_match_single_use "a@x.com" "123456" {} {} 0 1 dbOtp
      (by decide) (by decide)).2.2
      (toPublic { sampleUserU with isEmailVerified := true }) tpSample
      (some "Email verified successfully") dbAfterVerify (by decide)⟩

/-- C10: when the submitted code matches the active stored OTP but no user
record exists for the email, `verifyEmail` returns `User not found`/404
while the matched OTP has nevertheless been marked `isUsed = true` — the
consumption step precedes the user lookup and is not rolled back — so
retrying with the same code after a user record for the email has been
added is rejected with `Invalid or expired OTP`. -/
theorem verify_email_consumes_before_user_lookup
    (email code : String) (cfg cfg' : Config) (now now' : Nat) (st : DB)
    (o : OtpRec) (u : UserRec)
    (hle : now ≤ now')
    (hnouser : findUserByEmail email st = none)
    (ho : findLatestOtp email "verification" now st = some o)
    (hcode : o.otp = code)
    (huniq : (activeOtps email "verification" now st).length ≤ 1) :
    verifyEmail email code cfg now st
      = (.fail "User not found" 404 none, markOtpUsed o.oid st)
    ∧ (∀ x ∈ (markOtpUsed o.oid st).otps, x.oid = o.oid → x.isUsed = true)
    ∧ (verifyEmail email code cfg' now'
        { markOtpUsed o.oid st with
          users := (markOtpUsed o.oid st).users ++ [u] }).1
        = .fail "Invalid or expired OTP" 400 none := by
  have hv : verifyOTP email code "verification" now st
      = (true, markOtpUsed o.oid st) := by
    unfold verifyOTP
    rw [ho]
    dsimp only
    rw [if_neg (fun hk => hk hcode)]
  have hnouser' : findUserByEmail email (markOtpUsed o.oid st) = none := hnouser
  refine ⟨?_, ?_, ?_⟩
  · unfold verifyEmail
    dsimp only
    rw [hv]
    dsimp only
    rw [if_neg (by simp), hnouser']
  · intro x hx hxoid
    obtain ⟨x0, hx0_mem, hx0⟩ := List.mem_map.mp hx
    by_cases hc : x0.oid == o.oid
    · rw [if_pos hc] at hx0
      rw [← hx0]
    · rw [if_neg hc] at hx0
      subst hx0
      rw [hxoid] at hc
      simp at hc
  · have ho' := ho
    unfold findLatestOtp activeOtps at ho'
    unfold activeOtps at huniq
    have hnil := no_active_after_mark email "verification" now now'
      st.otps o hle huniq ho'
    have hnone : findLatestOtp email "verification" now'
        { markOtpUsed o.oid st with
          users := (markOtpUsed o.oid st).users ++ [u] } = none := by
      unfold findLatestOtp activeOtps
      dsimp only [markOtpUsed]
      rw [hnil]
      rfl
    have hv2 : (verifyOTP email code "verification" now'
        { markOtpUsed o.oid st with
          users := (markOtpUsed o.oid st).users ++ [u] }).1 = false := by
      unfold verifyOTP
      rw [hnone]
    unfold verifyEmail
    dsimp only
    rw [hv2]
    rfl

/-- C10 witness: the sample OTP with no user record — 404 outcome, code
consumed, retry after adding the user rejected. -/
theorem verify_email_consumes_witness :
    ((0 : Nat) ≤ 1
      ∧ findUserByEmail "a@x.com" dbOtpNoUser = none
      ∧ findLatestOtp "a@x.com" "verification" 0 dbOtpNoUser = some sampleOtp
      ∧ sampleOtp.otp = "123456"
      ∧ (activeOtps "a@x.com" "verification" 0 dbOtpNoUser).length ≤ 1)
    ∧ (verifyEmail "a@x.com" "123456" {} 0 dbOtpNoUser
        = (.fail "User not found" 404 none, markOtpUsed sampleOtp.oid dbOtpNoUser)
      ∧ (∀ x ∈ (markOtpUsed sampleOtp.oid dbOtpNoUser).otps,
          x.oid = sampleOtp.oid → x.isUsed = true)
      ∧ (verifyEmail "a@x.com" "123456" {} 1
          { markOtpUsed sampleOtp.oid dbOtpNoUser with
            users := (markOtpUsed sampleOtp.oid dbOtpNoUser).users ++ [sampleUserU] }).1
          = .fail "Invalid or expired OTP" 400 none) :=
  ⟨⟨by decide, by decide, by decide, by decide, by decide⟩,
   verify_email_consumes_before_user_lookup "a@x.com" "123456" {} {} 0 1
     dbOtpNoUser sampleOtp sampleUserU (by decide) (by decide) (by decide)
     (by decide) (by decide)⟩

/-- C5 counterexample: for the unverified sample user with correct
password, login's outcome is `Email not verified`/403 when the send
succeeds, but becomes the Notification Sender's error with status 500 when
it fails; likewise resend's acknowledgement becomes a 500 — the send
failure is propagated as the operation's outcome, not merely logged. -/
theorem notification_failure_fatal_counterexample :
    (loginUser "a@x.com" "pw123" 0 false {} 0 dbU).1
      = .fail "Email not verified" 403 (some "Verification OTP has been sent to your email")
    ∧ (loginUser "a@x.com" "pw123" 0 true {} 0 dbU).1 = .fail sendFailureMsg 500 none
    ∧ (resendVerificationOTP "a@x.com" 0 false 0 dbU).1
        = .ok () (some "Verification OTP sent successfully")
    ∧ (resendVerificationOTP "a@x.com" 0 true 0 dbU).1 = .fail sendFailureMsg 500 none := by
  exact ⟨by decide, by decide, by decide, by decide⟩

/-- C5 amended: only at registration is a Notification Sender failure
non-fatal — `createUser` leaves the store and the created user's returned
data unchanged and only swaps the success message for a note; at login
with an unverified email and at resend, the failure propagates to the
catch-all and is returned as a 500 Internal error in place of the
`Email not verified`/403 rejection or the resend acknowledgement. -/
theorem notification_failure_scope
    (d : SignupData) (e p : String) (r now : Nat) (st : DB) (cfg : Config) :
    (createUser d r false now st).2 = (createUser d r true now st).2
    ∧ (∀ pu m, (createUser d r false now st).1 = .ok pu m →
        (createUser d r true now st).1
          = .ok pu (some "User created successfully but failed to send verification email."))
    ∧ (∀ err c m, (createUser d r false now st).1 = .fail err c m →
        (createUser d r true now st).1 = .fail err c m)
    ∧ (∀ u, findUserByEmail e st = some u → bcryptCompare p u.password = true →
        u.isEmailVerified = false →
        (loginUser e p r true cfg now st).1 = .fail sendFailureMsg 500 none)
    ∧ (∀ u, findUserByEmail e st = some u → u.isEmailVerified = false →
        (resendVerificationOTP e r true now st).1 = .fail sendFailureMsg 500 none) := by
  refine ⟨?_, ?_, ?_, ?_, ?_⟩
  · simp only [createUser, sendVerificationOTP]
    cases findUserByEmail d.email st
    · dsimp only
      split <;> rfl
    · rfl
  · intro pu m
    simp only [createUser, sendVerificationOTP]
    cases findUserByEmail d.email st <;> dsimp only
    · split
      · intro h; cases h
      · intro h
        cases h
        rfl
    · intro h; cases h
  · intro err c m
    simp only [createUser, sendVerificationOTP]
    cases findUserByEmail d.email st <;> dsimp only
    · split
      · intro h
        cases h
        rfl
      · intro h; cases h
    · intro h
      cases h
      rfl
  · intro u hu hpw hv
    simp [loginUser, hu, hpw, hv, sendVerificationOTP]
  · intro u hu hv
    simp [resendVerificationOTP, hu, hv, sendVerificationOTP]

/-- C5 amendment witness: registration into the empty store and the
unverified sample user for login/resend. -/
theorem notification_failure_scope_witness :
    (findUserByEmail "a@x.com" dbU = some sampleUserU
      ∧ bcryptCompare "pw123" sampleUserU.password = true
      ∧ sampleUserU.isEmailVerified = false)
    ∧ (loginUser "a@x.com" "pw123" 0 true {} 0 dbU).1 = .fail sendFailureMsg 500 none
    ∧ (resendVerificationOTP "a@x.com" 0 true 0 dbU).1 = .fail sendFailureMsg 500 none :=
  ⟨⟨by decide, by decide, by decide⟩,
   (notification_failure_scope { email := "b@x.com", password := "secret1" }
      "a@x.com" "pw123" 0 0 dbU {}).2.2.2.1 sampleUserU (by decide) (by decide) (by decide),
   (notification_failure_scope { email := "b@x.com", password := "secret1" }
      "a@x.com" "pw123" 0 0 dbU {}).2.2.2.2 sampleUserU (by decide) (by decide)⟩

/-- C7 amendment witness: the orphan-token store. -/
theorem refresh_orphan_rejected_witness :
    (dbOrphanTok.tokens.find? (tokenLive "t0" 0) = some orphanTok
      ∧ findUserById orphanTok.user dbOrphanTok = none)
    ∧ refreshTokens "t0" {} 0 dbOrphanTok = (.fail "User not found" 401 none, dbOrphanTok) :=
  ⟨⟨by decide, by decide⟩,
   refresh_orphan_rejected "t0" {} 0 dbOrphanTok orphanTok (by decide) (by decide)⟩

/-- The user list after `updateUserProfile` is either untouched (failure
paths) or the allowed-field update mapped over the target user. -/
theorem updateUserProfile_users (userId : Nat) (d : UpdateData) (st : DB) :
    (updateUserProfile userId d st).2.users = st.users
    ∨ (updateUserProfile userId d st).2.users
        = st.users.map fun x =>
            if x.uid == userId then applyProfileUpdates d x else x := by
  unfold updateUserProfile
  dsimp only
  repeat' split
  all_goals first
    | exact Or.inl rfl
    | exact Or.inr rfl

/-- On success, `updateUserProfile` changed the store exactly by mapping
the allowed-field update over the target user. -/
theorem updateUserProfile_ok_inv (userId : Nat) (d : UpdateData) (st : DB) :
    ∀ pu m st', updateUserProfile userId d st = (.ok pu m, st') →
      st'.users = st.users.map fun x =>
        if x.uid == userId then applyProfileUpdates d x else x := by
  intro pu m st' hrun
  unfold updateUserProfile at hrun
  dsimp only at hrun
  repeat' split at hrun
  all_goals
    first
      | (simp only [Prod.mk.injEq, SvcRes.ok.injEq] at hrun
         rw [← hrun.2]
         try simp
         done)
      | (exfalso; revert hrun; simp)

/-- C9: profile update applies only `name`, `username` and `mobileNumber`:
the operation's entire outcome is unchanged when the input's `email` and
`password` fields are dropped (they are filtered out and never read); on
every path every stored user keeps its uid, email, password, verification
flags and creation date; and on success the store changes only by
applying the three allowed fields to the target user. -/
theorem profile_update_field_filtering
    (userId : Nat) (d : UpdateData) (st : DB) :
    updateUserProfile userId d st
      = updateUserProfile userId
          { name := d.name, username := d.username,
            mobileNumber := d.mobileNumber, email := none, password := none } st
    ∧ (∀ x ∈ (updateUserProfile userId d st).2.users,
        ∃ y ∈ st.users, x.uid = y.uid ∧ x.email = y.email
          ∧ x.password = y.password
          ∧ x.isEmailVerified = y.isEmailVerified
          ∧ x.isMobileVerified = y.isMobileVerified
          ∧ x.createdAt = y.createdAt)
    ∧ (∀ pu m st', updateUserProfile userId d st = (.ok pu m, st') →
        st'.users = st.users.map fun x =>
          if x.uid == userId then applyProfileUpdates d x else x) := by
  refine ⟨rfl, ?_, ?_⟩
  · intro x hx
    rcases updateUserProfile_users userId d st with h | h
    · rw [h] at hx
      exact ⟨x, hx, rfl, rfl, rfl, rfl, rfl, rfl⟩
    · rw [h] at hx
      obtain ⟨x0, hx0_mem, hx0⟩ := List.mem_map.mp hx
      by_cases hc : x0.uid == userId
      · rw [if_pos hc] at hx0
        subst hx0
        exact ⟨x0, hx0_mem, rfl, rfl, rfl, rfl, rfl, rfl⟩
      · rw [if_neg hc] at hx0
        subst hx0
        exact ⟨x0, hx0_mem, rfl, rfl, rfl, rfl, rfl, rfl⟩
  · exact updateUserProfile_ok_inv userId d st

/-- C9 witness: a concrete update carrying an `email` field: the email is
ignored, the user's stored email and password are unchanged, and only the
name is applied. -/
theorem profile_update_witness :
    (updateUserProfile 1 { name := some "New", email := some "evil@x.com" } dbV
        = (.ok (toPublic { sampleUserV with name := some "New" }) none,
           { dbV with users := [{ sampleUserV with name := some "New" }] }))
    ∧ (∃ y ∈ dbV.users,
        ({ sampleUserV with name := some "New" } : UserRec).uid = y.uid
        ∧ ({ sampleUserV with name := some "New" } : UserRec).email = y.email
        ∧ ({ sampleUserV with name := some "New" } : UserRec).password = y.password
        ∧ ({ sampleUserV with name := some "New" } : UserRec).isEmailVerified = y.isEmailVerified
        ∧ ({ sampleUserV with name := some "New" } : UserRec).isMobileVerified = y.isMobileVerified
        ∧ ({ sampleUserV with name := some "New" } : UserRec).createdAt = y.createdAt)
    ∧ ({ dbV with users := [{ sampleUserV with name := some "New" }] } : DB).users
        = dbV.users.map fun x =>
            if x.uid == 1 then
              applyProfileUpdates { name := some "New", email := some "evil@x.com" } x
            else x :=
  ⟨by decide,
   (profile_update_field_filtering 1
      { name := some "New", email := some "evil@x.com" } dbV).2.1
     { sampleUserV with name := some "New" } (by decide),
   (profile_update_field_filtering 1
      { name := some "New", email := some "evil@x.com" } dbV).2.2
     (toPublic { sampleUserV with name := some "New" }) none
     { dbV with users := [{ sampleUserV with name := some "New" }] } (by decide)⟩

end Vansh
